import Mathlib

/-!
Shallow embedding of the reorder/optimization core of the quickcommerce
inventory repository (src/src/utils/calculations.js), together with proofs
settling the specification claims about it.

Modelling conventions:
* JavaScript numbers are modelled by the rationals; the non-finite results
  produced by unguarded divisions are captured by the `JSNum` type below.
* An optional field (one a record may lack, i.e. be `undefined` at) is
  modelled as an `Option`.  JavaScript truthiness of numbers (`0` is falsy)
  and of strings (the empty string is falsy) is modelled explicitly at every
  use site.
* Comparisons with `undefined` or `NaN` are `false` in JavaScript; the
  helpers below reproduce that.
-/

attribute [local semireducible] Rat.add Rat.sub Rat.mul Rat.inv

/-- The value space needed for the result of `calculateDaysLeft`: a finite
JavaScript number, positive or negative infinity, or `NaN`. -/
inductive JSNum where
  | num (q : ℚ)
  | posInf
  | negInf
  | nan
deriving DecidableEq, Repr

/-- JavaScript division, restricted to the operand shapes that occur in
`calculateDaysLeft` (a finite numerator; a finite or `NaN` denominator).
Division by zero yields a signed infinity, and any `NaN` operand yields
`NaN`. -/
def jsDiv : JSNum → JSNum → JSNum
  | .num a, .num b =>
      if b = 0 then (if 0 < a then .posInf else if a < 0 then .negInf else .nan)
      else .num (a / b)
  | _, _ => .nan

/-- `Math.ceil` on the `JSNum` value space. -/
def jsCeil : JSNum → JSNum
  | .num q => .num ((Rat.ceil q : ℤ) : ℚ)
  | .posInf => .posInf
  | .negInf => .negInf
  | .nan => .nan

/-- `a || b` for an optional numeric field `a` with a plain numeric
fallback: `undefined` and `0` are falsy. -/
def jsOrQ : Option ℚ → ℚ → ℚ
  | none, b => b
  | some a, b => if a = 0 then b else a

/-- Truthiness of an optional numeric field (`undefined` and `0` falsy). -/
def jsTruthyQ : Option ℚ → Bool
  | none => false
  | some a => a ≠ 0

/-- Truthiness of an optional string field (`undefined` and `""` falsy). -/
def jsTruthyStr : Option String → Bool
  | none => false
  | some s => s ≠ ""

/-- `q <= m` where `m` is an optional field; comparing with `undefined` is
`false` in JavaScript. -/
def jsLeOpt (q : ℚ) : Option ℚ → Bool
  | none => false
  | some m => q ≤ m

/-- `q > m` where `m` is an optional field; comparing with `undefined` is
`false` in JavaScript. -/
def jsGtOpt (q : ℚ) : Option ℚ → Bool
  | none => false
  | some m => m < q

/-- `x > t` where `x` is a possibly-`undefined` number. -/
def jsGtUndef (x : Option ℚ) (t : ℚ) : Bool :=
  match x with
  | none => false
  | some a => t < a

/-- `x <= t` where `x` is a possibly-`undefined` number. -/
def jsLeUndef (x : Option ℚ) (t : ℚ) : Bool :=
  match x with
  | none => false
  | some a => a ≤ t

/-- Reading a named property (such as `.daysLeft`) off a JavaScript number
yields `undefined`: numbers have no such properties.  Several call sites of
`calculateDaysLeft` do exactly that. -/
def numberField (_ : JSNum) : Option ℚ := none

/-- An inventory item record, as consumed by src/src/utils/calculations.js.
Fields the source reads but a record may lack are `Option`s.  `aiMetadata`
is flattened to the single sub-field the calculation module reads
(`aiMetadata.optimalOrderQuantity`); `purchaseHistory` is flattened to its
length, the only aspect the embedded functions use. -/
structure Item where
  name : String
  quantity : ℚ
  category : String
  id : Option String := none
  minThreshold : Option ℚ := none
  price : Option ℚ := none
  purchaseFrequency : Option String := none
  dailyConsumptionRate : Option ℚ := none
  hasSubscription : Bool := false
  aiOptimalOrderQuantity : Option ℚ := none
  purchaseHistoryLen : Option ℕ := none
  store : Option String := none
  aisle : Option ℚ := none
deriving DecidableEq, Repr

/-- Result shape of `validateItem`. -/
structure ValidationResult where
  valid : Bool
  error : Option String := none
deriving DecidableEq, Repr

/-- The enumerated purchase frequencies accepted by the validator. -/
def validFrequencies : List String :=
  ["daily", "weekly", "biweekly", "monthly", "asNeeded"]

/-- `requiredFields.filter(field => !item[field])` from the source: a field
is missing when its value is falsy, so `quantity: 0` counts as missing. -/
def missingRequiredFields (item : Item) : List String :=
  (if item.name = "" then ["name"] else []) ++
  (if item.quantity = 0 then ["quantity"] else []) ++
  (if item.category = "" then ["category"] else [])

/-- `validateItem` (calculations.js lines 9-52).  The `typeof`/`isNaN`
checks on `quantity`, `price` and `minThreshold` are vacuous here because
the model types those fields as (optional) rationals; the remaining checks
are embedded as written.  Note the frequency check is guarded by the
truthiness of `purchaseFrequency`, so an empty string passes. -/
def validateItem : Option Item → ValidationResult
  | none => { valid := false, error := some "Item is undefined or null" }
  | some item =>
    let missing := missingRequiredFields item
    if missing ≠ [] then
      { valid := false
        error := some ("Missing required fields: " ++ String.intercalate ", " missing) }
    else
      match item.purchaseFrequency with
      | some f =>
        if f ≠ "" ∧ f ∉ validFrequencies then
          { valid := false
            error := some "Invalid purchase frequency. Must be one of: daily, weekly, biweekly, monthly, asNeeded" }
        else { valid := true }
      | none => { valid := true }

/-- The fallback daily rate `item.minThreshold / 14`; with `minThreshold`
absent this is `undefined / 14`, which is `NaN`. -/
def thresholdFallbackRate (item : Item) : JSNum :=
  match item.minThreshold with
  | some m => .num (m / 14)
  | none => .nan

/-- `calculateDaysLeft` (calculations.js lines 83-89).  Returns `0` for a
null item or non-positive quantity; otherwise divides the quantity by
`item.dailyConsumptionRate || (item.minThreshold / 14)` and applies
`Math.ceil`.  There is no guard on the divisor, so a zero resolved rate
produces `Infinity` and an absent `minThreshold` produces `NaN`. -/
def calculateDaysLeft : Option Item → JSNum
  | none => .num 0
  | some item =>
    if item.quantity ≤ 0 then .num 0
    else
      let dailyRate : JSNum :=
        match item.dailyConsumptionRate with
        | some r => if r = 0 then thresholdFallbackRate item else .num r
        | none => thresholdFallbackRate item
      jsCeil (jsDiv (.num item.quantity) dailyRate)

/-- Options of `calculateReorderSuggestions`, with the source defaults. -/
structure ReorderOptions where
  notificationThreshold : ℚ := 7
  includeAlmostEmpty : Bool := true
  includeBelowThreshold : Bool := true
  includeOutOfStock : Bool := true
  bulkPurchaseThreshold : ℚ := 3
deriving DecidableEq, Repr

/-- A suggestion record: the spread of the underlying item plus the derived
fields attached by `calculateReorderSuggestions`.  The `daysLeft`,
`confidence` and `consumptionRate` fields are property reads off the
numeric return of `calculateDaysLeft`, hence always `undefined` (`none`)
when produced by the generator; `essential` is attached only later by the
optimizer, and `orderQuantity` is a field the savings calculators probe
that suggestions never carry. -/
structure Suggestion where
  item : Item
  daysLeft : Option JSNum := none
  confidence : Option JSNum := none
  suggestedOrderQuantity : ℚ := 0
  bulkRecommended : Bool := false
  subscriptionEligible : Bool := false
  urgency : String := "low"
  consumptionRate : Option JSNum := none
  essential : Option Bool := none
  orderQuantity : Option ℚ := none
deriving DecidableEq, Repr

/-- Result of `calculateReorderSuggestions`, with the metadata object
flattened into the record (the `timestamp` field, a wall-clock read, is
not modelled). -/
structure SuggestResult where
  items : List Suggestion
  success : Bool
  error : Option String := none
  totalItems : ℕ := 0
  criticalItems : ℕ := 0
  highPriorityItems : ℕ := 0
  bulkOpportunities : ℕ := 0
  subscriptionOpportunities : ℕ := 0
deriving DecidableEq, Repr

/-- The selection predicate of `calculateReorderSuggestions` (lines
655-673).  The almost-empty branch reads `.daysLeft` off the numeric
return of `calculateDaysLeft`, so it compares `undefined` with the
threshold and is always false. -/
def needsAttention (opts : ReorderOptions) (item : Item) : Bool :=
  if ¬ (validateItem (some item)).valid then false
  else if opts.includeOutOfStock ∧ item.quantity = 0 then true
  else if opts.includeBelowThreshold ∧ jsLeOpt item.quantity item.minThreshold then true
  else if opts.includeAlmostEmpty then
    jsLeUndef (numberField (calculateDaysLeft (some item))) opts.notificationThreshold
  else false

/-- The `switch (item.purchaseFrequency)` computing the frequency-scaled
base quantity `max(1, minThreshold || 1) * multiplier` (lines 686-705). -/
def freqOrderQuantity (item : Item) : ℚ :=
  let baseQuantity : ℚ := max 1 (jsOrQ item.minThreshold 1)
  match item.purchaseFrequency with
  | some "daily" => baseQuantity * 3
  | some "weekly" => baseQuantity * 2
  | some "biweekly" => ((Rat.ceil (baseQuantity * (3 / 2)) : ℤ) : ℚ)
  | some "monthly" => baseQuantity * (6 / 5)
  | _ => baseQuantity

/-- The raw order quantity before the final ceiling (lines 679-706): the
AI-cached `optimalOrderQuantity` when truthy, otherwise the
frequency-based quantity. -/
def rawOrderQuantity (item : Item) : ℚ :=
  match item.aiOptimalOrderQuantity with
  | some q => if q = 0 then freqOrderQuantity item else q
  | none => freqOrderQuantity item

/-- The map step of `calculateReorderSuggestions` (lines 674-737): spreads
the item and attaches the derived fields.  `bulkRecommended` compares the
raw (pre-ceiling) quantity with the threshold, exactly as the source does;
the stored quantity is `Math.max(1, Math.ceil(...))`. -/
def makeSuggestion (opts : ReorderOptions) (item : Item) : Suggestion :=
  let daysLeftInfo := calculateDaysLeft (some item)
  let rawQty := rawOrderQuantity item
  { item := item
    daysLeft := (numberField daysLeftInfo).map JSNum.num
    confidence := (numberField daysLeftInfo).map JSNum.num
    suggestedOrderQuantity := ((max 1 (Rat.ceil rawQty) : ℤ) : ℚ)
    bulkRecommended := decide (opts.bulkPurchaseThreshold ≤ rawQty)
    subscriptionEligible :=
      jsTruthyStr item.purchaseFrequency
        && item.purchaseFrequency ≠ some "asNeeded"
        && !item.hasSubscription
    urgency :=
      if item.quantity = 0 then "critical"
      else if jsLeOpt item.quantity item.minThreshold then "high"
      else if jsLeUndef (numberField daysLeftInfo) 3 then "medium"
      else "low"
    consumptionRate := (numberField daysLeftInfo).map JSNum.num }

/-- Assembly of the success result with its aggregate metadata counts
(lines 739-753). -/
def mkSuggestResult (suggested : List Suggestion) : SuggestResult :=
  { items := suggested
    success := true
    totalItems := suggested.length
    criticalItems := (suggested.filter (fun s => s.urgency == "critical")).length
    highPriorityItems := (suggested.filter (fun s => s.urgency == "high")).length
    bulkOpportunities := (suggested.filter (fun s => s.bulkRecommended)).length
    subscriptionOpportunities := (suggested.filter (fun s => s.subscriptionEligible)).length }

/-- `calculateReorderSuggestions` (lines 633-764): rejects a null or empty
inventory, filters items needing attention (invalid items silently
skipped), and maps each to a suggestion with aggregate counts. -/
def calculateReorderSuggestions (inventory : Option (List Item))
    (options : ReorderOptions) : SuggestResult :=
  match inventory with
  | none => { items := [], success := false, error := some "Invalid or empty inventory" }
  | some [] => { items := [], success := false, error := some "Invalid or empty inventory" }
  | some l => mkSuggestResult ((l.filter (needsAttention options)).map (makeSuggestion options))

/-- `x <= t` where `x` is a possibly-absent `JSNum`-valued field, as in
`item.daysLeft <= 3`; `undefined` and `NaN` compare false. -/
def jsLeJN : Option JSNum → ℚ → Bool
  | some (.num a), t => a ≤ t
  | some .negInf, _ => true
  | _, _ => false

/-- Truthiness of the `essential` field: only an explicit `true` counts
(`undefined` and `false` are both falsy). -/
def essTruthy (s : Suggestion) : Bool := s.essential = some true

/-- The urgency-value helper attached to the function object as
`optimizeShoppingList._getUrgencyValue` (lines 1034-1042). -/
def getUrgencyValue (urgency : String) : ℤ :=
  if urgency = "critical" then 4
  else if urgency = "high" then 3
  else if urgency = "medium" then 2
  else if urgency = "low" then 1
  else 0

/-- The urgency-tier helper attached as
`optimizeShoppingList._getUrgencyTier` (lines 1048-1063). -/
def getUrgencyTier (s : Suggestion) : ℤ :=
  if s.item.quantity = 0 then 0
  else if jsLeOpt s.item.quantity s.item.minThreshold then 1
  else if jsLeJN s.daysLeft 3 then 2
  else if jsLeJN s.daysLeft 7 then 3
  else 4

/-- The pair of helpers a comparator would need to reach through `this`. -/
structure UrgencyHelpers where
  urgencyValue : String → ℤ
  urgencyTier : Suggestion → ℤ

/-- At the top level of an ES module `this` is `undefined`, and the inline
sort comparators of `optimizeShoppingList` are arrow functions, so the
`this` they close over is that module-level `undefined` rather than the
function object the helpers are attached to. -/
def moduleThis : Option UrgencyHelpers := none

/-- `this._getUrgencyValue(u)` inside a comparator: a method call on
`undefined` throws a `TypeError`. -/
def thisUrgencyValue (u : String) : Except String ℤ :=
  match moduleThis with
  | some h => .ok (h.urgencyValue u)
  | none => .error "TypeError: this is undefined"

/-- `this._getUrgencyTier(s)` inside a comparator: a method call on
`undefined` throws a `TypeError`. -/
def thisUrgencyTier (s : Suggestion) : Except String ℤ :=
  match moduleThis with
  | some h => .ok (h.urgencyTier s)
  | none => .error "TypeError: this is undefined"

/-- `String.prototype.localeCompare`, modelled as code-point order. -/
def localeCompare (a b : String) : ℚ :=
  if a < b then -1 else if a = b then 0 else 1

/-- `a.price && a.suggestedOrderQuantity ? a.price / a.suggestedOrderQuantity : 0`. -/
def priceEfficiency (s : Suggestion) : ℚ :=
  match s.item.price with
  | some p => if p ≠ 0 ∧ s.suggestedOrderQuantity ≠ 0 then p / s.suggestedOrderQuantity else 0
  | none => 0

/-- `preferredStores.indexOf(store)`: `-1` when the store is not listed or
the field is `undefined`. -/
def storeIndex (stores : List String) : Option String → ℤ
  | some s =>
    match stores.findIdx? (fun t => t == s) with
    | some i => (i : ℤ)
    | none => -1
  | none => -1

/-- `a.daysLeft - b.daysLeft`: unless both fields are finite numbers the
difference is `NaN`, which the ECMAScript sort comparison maps to `+0`. -/
def daysLeftDiff : Option JSNum → Option JSNum → ℚ
  | some (.num x), some (.num y) => x - y
  | _, _ => 0

/-- The `cost` preference comparator (lines 823-849).  Its final fallback
calls `this._getUrgencyValue`, which throws. -/
def costCompare (a b : Suggestion) : Except String ℚ :=
  if essTruthy a ∧ ¬ essTruthy b then .ok (-1)
  else if ¬ essTruthy a ∧ essTruthy b then .ok 1
  else if a.item.store ≠ b.item.store ∧ jsTruthyStr a.item.store ∧ jsTruthyStr b.item.store then
    .ok (localeCompare (a.item.store.getD "") (b.item.store.getD ""))
  else if a.item.category ≠ b.item.category then
    .ok (localeCompare a.item.category b.item.category)
  else
    let aEff := priceEfficiency a
    let bEff := priceEfficiency b
    if aEff ≠ 0 ∧ bEff ≠ 0 then .ok (aEff - bEff)
    else do
      let bv ← thisUrgencyValue b.urgency
      let av ← thisUrgencyValue a.urgency
      .ok ((bv - av : ℤ) : ℚ)

/-- The `time` preference comparator (lines 854-890), the only one that
never touches `this`. -/
def timeCompare (preferredStores : List String) (a b : Suggestion) : ℚ :=
  if essTruthy a ∧ ¬ essTruthy b then -1
  else if ¬ essTruthy a ∧ essTruthy b then 1
  else
    let ai := storeIndex preferredStores a.item.store
    let bi := storeIndex preferredStores b.item.store
    if preferredStores ≠ [] ∧ ai ≠ -1 ∧ bi ≠ -1 then ((ai - bi : ℤ) : ℚ)
    else if preferredStores ≠ [] ∧ ai ≠ -1 then -1
    else if preferredStores ≠ [] ∧ bi ≠ -1 then 1
    else if a.item.store ≠ b.item.store ∧ jsTruthyStr a.item.store ∧ jsTruthyStr b.item.store then
      localeCompare (a.item.store.getD "") (b.item.store.getD "")
    else if a.item.category ≠ b.item.category then
      localeCompare a.item.category b.item.category
    else if jsTruthyQ a.item.aisle ∧ jsTruthyQ b.item.aisle ∧ a.item.aisle ≠ b.item.aisle then
      a.item.aisle.getD 0 - b.item.aisle.getD 0
    else 0

/-- The `urgent` preference comparator (lines 895-910): its very first
step calls `this._getUrgencyValue`, which throws. -/
def urgentCompare (a b : Suggestion) : Except String ℚ := do
  let av ← thisUrgencyValue a.urgency
  let bv ← thisUrgencyValue b.urgency
  if av ≠ bv then .ok ((bv - av : ℤ) : ℚ)
  else if a.item.quantity = 0 ∧ b.item.quantity ≠ 0 then .ok (-1)
  else if a.item.quantity ≠ 0 ∧ b.item.quantity = 0 then .ok 1
  else .ok (daysLeftDiff a.daysLeft b.daysLeft)

/-- The `balanced` (default) preference comparator (lines 916-952): its
very first step calls `this._getUrgencyTier`, which throws. -/
def balancedCompare (preferredStores : List String) (a b : Suggestion) : Except String ℚ := do
  let ta ← thisUrgencyTier a
  let tb ← thisUrgencyTier b
  if ta ≠ tb then .ok ((ta - tb : ℤ) : ℚ)
  else
    let ai := storeIndex preferredStores a.item.store
    let bi := storeIndex preferredStores b.item.store
    if preferredStores ≠ [] ∧ ai ≠ -1 ∧ bi ≠ -1 ∧ ai ≠ bi then .ok ((ai - bi : ℤ) : ℚ)
    else if a.item.category ≠ b.item.category then
      .ok (localeCompare a.item.category b.item.category)
    else
      let aEff := priceEfficiency a
      let bEff := priceEfficiency b
      if aEff ≠ 0 ∧ bEff ≠ 0 then .ok (aEff - bEff) else .ok 0

/-- Insertion step of a stable sort whose comparator can throw, the way an
exception propagates out of `Array.prototype.sort`. -/
def insertE (cmp : α → α → Except String ℚ) (x : α) : List α → Except String (List α)
  | [] => .ok [x]
  | y :: ys => do
      let c ← cmp x y
      if c ≤ 0 then .ok (x :: y :: ys)
      else do
        let r ← insertE cmp x ys
        .ok (y :: r)

/-- Stable sort with a throwing comparator, standing in for the engine
sort: on any list of length at least two it evaluates the comparator at
least once, which is all the results below rely on. -/
def sortE (cmp : α → α → Except String ℚ) : List α → Except String (List α)
  | [] => .ok []
  | x :: xs => do
      let r ← sortE cmp xs
      insertE cmp x r

/-- Options of `optimizeShoppingList`, with the source defaults.
`maxItems` is any number in the source, truncated by `slice`; it is
modelled as a natural count. -/
structure OptimizeOptions where
  preference : String := "balanced"
  maxItems : Option ℕ := none
  budget : Option ℚ := none
  preferredStores : List String := []
  includeNonEssentials : Bool := true
deriving DecidableEq, Repr

/-- Essential labeling (lines 796-812): a record already carrying an
`essential` key keeps it; out-of-stock or below-threshold items become
essential; the rest are labeled from frequency, category and urgency. -/
def labelEssential (s : Suggestion) : Suggestion :=
  if s.essential.isSome then s
  else if s.item.quantity = 0 ∨ jsLeOpt s.item.quantity s.item.minThreshold then
    { s with essential := some true }
  else
    { s with essential := some (
        s.item.purchaseFrequency == some "daily"
        || s.item.purchaseFrequency == some "weekly"
        || s.item.category == "grocery"
        || s.item.category == "household"
        || s.urgency == "high"
        || s.urgency == "critical") }

/-- `(item.price || 0) * item.suggestedOrderQuantity`, the cost expression
shared by the budget pass and the batching loop. -/
def itemCost (s : Suggestion) : ℚ :=
  jsOrQ s.item.price 0 * s.suggestedOrderQuantity

/-- The budget pass (lines 957-976): a stateful filter accumulating the
running total; essential items always pass and are counted against the
budget, a non-essential item passes only if the total including it stays
within budget. -/
def budgetFilter (budget : ℚ) (runningTotal : ℚ) : List Suggestion → List Suggestion
  | [] => []
  | s :: rest =>
      if essTruthy s then
        s :: budgetFilter budget (runningTotal + itemCost s) rest
      else if runningTotal + itemCost s ≤ budget then
        s :: budgetFilter budget (runningTotal + itemCost s) rest
      else budgetFilter budget runningTotal rest

/-- `if (budget && budget > 0)` around the budget pass. -/
def applyBudget (budget : Option ℚ) (l : List Suggestion) : List Suggestion :=
  match budget with
  | some b => if 0 < b then budgetFilter b 0 l else l
  | none => l

/-- The item-cap pass (lines 979-992): keep every essential item, fill
the remaining slots with non-essentials in order, and truncate the
essentials themselves only when they alone reach the cap. -/
def applyMaxItems (maxItems : Option ℕ) (l : List Suggestion) : List Suggestion :=
  match maxItems with
  | some m =>
      if 0 < m ∧ m < l.length then
        let essentialItems := l.filter essTruthy
        let nonEssentialItems := l.filter (fun s => !essTruthy s)
        if m ≤ essentialItems.length then essentialItems.take m
        else essentialItems ++ nonEssentialItems.take (m - essentialItems.length)
      else l
  | none => l

/-- Comparator selection by the `preference` option (the `switch` at line
820); `balanced` is also the `default` arm. -/
def prefCompare (options : OptimizeOptions) : Suggestion → Suggestion → Except String ℚ :=
  if options.preference = "cost" then costCompare
  else if options.preference = "time" then
    fun a b => .ok (timeCompare options.preferredStores a b)
  else if options.preference = "urgent" then urgentCompare
  else balancedCompare options.preferredStores

/-- The quantity-tier bulk discount (lines 1083-1090). -/
def bulkTierRate (q : ℚ) : ℚ :=
  if 10 ≤ q then 15/100 else if 5 ≤ q then 12/100 else if 3 ≤ q then 10/100 else 0

/-- The category-specific bulk floor applied with `Math.max` over the tier
rate (lines 1093-1099). -/
def bulkCategoryRate (q : ℚ) (category : String) (tier : ℚ) : ℚ :=
  if category = "grocery" ∧ 3 ≤ q then max tier (8/100)
  else if category = "household" ∧ 3 ≤ q then max tier (12/100)
  else if category = "electronics" ∧ 2 ≤ q then max tier (5/100)
  else tier

/-- `item.orderQuantity || item.suggestedOrderQuantity || 1`, the
quantity resolution shared by both savings calculators. -/
def resolvedOrderQuantity (s : Suggestion) : ℚ :=
  jsOrQ s.orderQuantity (if s.suggestedOrderQuantity = 0 then 1 else s.suggestedOrderQuantity)

/-- The per-item term of `calculateBulkSavings` (lines 1075-1102): a
falsy or non-numeric price contributes nothing. -/
def itemBulkSavings (s : Suggestion) : ℚ :=
  let q := resolvedOrderQuantity s
  match s.item.price with
  | none => 0
  | some p =>
      if p = 0 then 0
      else p * q * bulkCategoryRate q s.item.category (bulkTierRate q)

/-- `calculateBulkSavings` (lines 1070-1104): `0` on a missing or empty
cart, otherwise the reduce-accumulated per-item savings. -/
def calculateBulkSavings : Option (List Suggestion) → ℚ
  | none => 0
  | some [] => 0
  | some l => l.foldl (fun acc s => acc + itemBulkSavings s) 0

/-- One entry of the itemized subscription savings; the unpriced branch
of the source returns a record without `category` and `discountRate`
keys, modelled as `none`. -/
structure ItemizedSaving where
  itemId : Option String
  itemName : String
  category : Option String := none
  savings : ℚ
  discountRate : Option ℚ := none
  annualSavings : ℚ
  recommended : Bool
deriving DecidableEq, Repr

/-- Result of `calculateSubscriptionSavings`.  `totalAnnualSavings` is an
`Option` because the empty-input early return (lines 1113-1117) builds a
record without that key. -/
structure SubscriptionSavingsResult where
  totalSavings : ℚ
  itemizedSavings : List ItemizedSaving
  recommendedItems : ℕ
  totalAnnualSavings : Option ℚ
deriving DecidableEq, Repr

/-- The subscription eligibility filter (lines 1120-1125). -/
def subscriptionEligibleForSavings (s : Suggestion) : Bool :=
  !s.item.hasSubscription &&
    ((jsTruthyStr s.item.purchaseFrequency && s.item.purchaseFrequency ≠ some "asNeeded")
      || (match s.item.purchaseHistoryLen with
          | some n => decide (3 ≤ n)
          | none => false))

/-- The per-category subscription discount rate (lines 1141-1151). -/
def subscriptionDiscountRate (category : String) : ℚ :=
  if category = "grocery" then 10/100
  else if category = "household" then 15/100
  else if category = "personal" then 12/100
  else if category = "electronics" then 5/100
  else 15/100

/-- The frequency-to-purchases-per-year table (lines 1157-1164); the
`default` arm covers both `asNeeded` and an absent frequency. -/
def annualPurchases (pf : Option String) : ℚ :=
  match pf with
  | some "daily" => 365
  | some "weekly" => 52
  | some "biweekly" => 26
  | some "monthly" => 12
  | _ => 6

/-- The itemized entry for one eligible item (lines 1127-1180). -/
def itemizedSubscriptionSaving (s : Suggestion) : ItemizedSaving :=
  let q := resolvedOrderQuantity s
  match s.item.price with
  | none =>
      { itemId := s.item.id, itemName := s.item.name, savings := 0,
        recommended := false, annualSavings := 0 }
  | some p =>
      if p = 0 then
        { itemId := s.item.id, itemName := s.item.name, savings := 0,
          recommended := false, annualSavings := 0 }
      else
        let r := subscriptionDiscountRate s.item.category
        let annual := p * q * r * annualPurchases s.item.purchaseFrequency
        { itemId := s.item.id, itemName := s.item.name,
          category := some s.item.category, savings := p * q * r,
          discountRate := some r, annualSavings := annual,
          recommended := decide (20 ≤ annual) }

/-- `calculateSubscriptionSavings` (lines 1111-1191).  The empty-input
early return has no `totalAnnualSavings` key, unlike the main path. -/
def calculateSubscriptionSavings : Option (List Suggestion) → SubscriptionSavingsResult
  | none =>
      { totalSavings := 0, itemizedSavings := [], recommendedItems := 0,
        totalAnnualSavings := none }
  | some [] =>
      { totalSavings := 0, itemizedSavings := [], recommendedItems := 0,
        totalAnnualSavings := none }
  | some l =>
      let itemized := (l.filter subscriptionEligibleForSavings).map itemizedSubscriptionSaving
      { totalSavings := itemized.foldl (fun acc e => acc + e.savings) 0
        itemizedSavings := itemized
        recommendedItems := (itemized.filter (·.recommended)).length
        totalAnnualSavings := some (itemized.foldl (fun acc e => acc + e.annualSavings) 0) }

/-- Result of `optimizeShoppingList`, metadata flattened (the timestamp,
a wall-clock read, is not modelled). -/
structure OptimizeResult where
  items : List Suggestion
  success : Bool
  error : Option String := none
  totalItems : ℕ := 0
  essentialItems : ℕ := 0
  nonEssentialItems : ℕ := 0
  estimatedTotalCost : ℚ := 0
  potentialBulkSavings : ℚ := 0
  potentialSubscriptionSavings : Option SubscriptionSavingsResult := none
deriving DecidableEq, Repr

/-- The body of `optimizeShoppingList` inside its `try` (lines 791-1017):
label, filter, sort (which can throw), budget pass, item cap. -/
def optimizeCore (l : List Suggestion) (options : OptimizeOptions) :
    Except String (List Suggestion) := do
  let labeled := l.map labelEssential
  let filtered := if options.includeNonEssentials then labeled else labeled.filter essTruthy
  let sorted ← sortE (prefCompare options) filtered
  .ok (applyMaxItems options.maxItems (applyBudget options.budget sorted))

/-- `optimizeShoppingList` (lines 772-1028): guards a missing or empty
suggestion list, runs the pipeline, and converts a thrown comparator
`TypeError` into the catch-all failure result with an empty item list. -/
def optimizeShoppingList (suggestions : Option (List Suggestion))
    (options : OptimizeOptions) : OptimizeResult :=
  match suggestions with
  | none => { items := [], success := false, error := some "Invalid or empty suggestions list" }
  | some [] => { items := [], success := false, error := some "Invalid or empty suggestions list" }
  | some l =>
    match optimizeCore l options with
    | .error e => { items := [], success := false, error := some e }
    | .ok optimized =>
        { items := optimized
          success := true
          totalItems := optimized.length
          essentialItems := (optimized.filter essTruthy).length
          nonEssentialItems := (optimized.filter (fun s => !essTruthy s)).length
          estimatedTotalCost := optimized.foldl (fun acc s => acc + itemCost s) 0
          potentialBulkSavings := calculateBulkSavings (some optimized)
          potentialSubscriptionSavings := some (calculateSubscriptionSavings (some optimized)) }

/-- The options `generateSmartReorderPlan` fixes when computing its
immediate needs (lines 1452-1457); they coincide with the defaults. -/
def smartPlanImmediateOptions : ReorderOptions := {}

/-- The filter predicate of the `upcoming` list (lines 1460-1471).  The
days-left bound reads `.daysLeft` off the numeric return of
`calculateDaysLeft`, so it compares `undefined` with the bounds. -/
def upcomingPred (immediateItems : List Suggestion) (daysToLookAhead : ℚ)
    (item : Item) : Bool :=
  if immediateItems.any (fun i => i.item.id == item.id) then false
  else if !(validateItem (some item)).valid then false
  else
    let dl := numberField (calculateDaysLeft (some item))
    jsGtUndef dl 7 && jsLeUndef dl daysToLookAhead

/-- The map step of the `upcoming` list (lines 1472-1484): note the raw
`aiMetadata?.optimalOrderQuantity || Math.max(1, minThreshold || 1)`
quantity, with no ceiling applied. -/
def mkUpcomingSuggestion (item : Item) : Suggestion :=
  { item := item
    daysLeft := (numberField (calculateDaysLeft (some item))).map JSNum.num
    confidence := (numberField (calculateDaysLeft (some item))).map JSNum.num
    suggestedOrderQuantity := jsOrQ item.aiOptimalOrderQuantity (max 1 (jsOrQ item.minThreshold 1))
    urgency := "upcoming"
    essential := some false }

/-- The `upcoming` list of `generateSmartReorderPlan` (lines 1460-1484),
as a function of the inventory and the look-ahead option; `immediate` is
the suggestion result computed with the fixed options. -/
def upcomingItems (inventory : List Item) (daysToLookAhead : ℚ) : List Suggestion :=
  (inventory.filter
    (upcomingPred
      (calculateReorderSuggestions (some inventory) smartPlanImmediateOptions).items
      daysToLookAhead)).map mkUpcomingSuggestion

/-- A purchase batch (lines 1544-1549). -/
structure Batch where
  items : List Suggestion
  totalCost : ℚ
  itemCount : ℕ
  essentialItemCount : ℕ
deriving DecidableEq, Repr

/-- The batch record pushed by the loop. -/
def mkBatch (cur : List Suggestion) (cost : ℚ) : Batch :=
  { items := cur, totalCost := cost, itemCount := cur.length,
    essentialItemCount := (cur.filter essTruthy).length }

/-- The pre-batching sort comparator (lines 1525-1536): out-of-stock
first, then below-threshold, then the `daysLeft` difference (which is
`NaN`, treated as `+0` by the ECMAScript sort, whenever a `daysLeft`
field is not a finite number). -/
def batchSortCompare (a b : Suggestion) : ℚ :=
  if a.item.quantity = 0 ∧ b.item.quantity ≠ 0 then -1
  else if a.item.quantity ≠ 0 ∧ b.item.quantity = 0 then 1
  else if jsLeOpt a.item.quantity a.item.minThreshold ∧
          jsGtOpt b.item.quantity b.item.minThreshold then -1
  else if jsGtOpt a.item.quantity a.item.minThreshold ∧
          jsLeOpt b.item.quantity b.item.minThreshold then 1
  else daysLeftDiff a.daysLeft b.daysLeft

/-- Insertion step of a stable insertion sort with a boolean order. -/
def insertP (le : α → α → Bool) (x : α) : List α → List α
  | [] => [x]
  | y :: ys => if le x y then x :: y :: ys else y :: insertP le x ys

/-- Stable insertion sort, standing in for the stable ECMAScript
`Array.prototype.sort`. -/
def sortP (le : α → α → Bool) : List α → List α
  | [] => []
  | x :: xs => insertP le x (sortP le xs)

/-- The sort feeding the batching loop. -/
def sortForBatching (l : List Suggestion) : List Suggestion :=
  sortP (fun a b => batchSortCompare a b ≤ 0) l

/-- State of the batching loop (lines 1520-1522). -/
structure BatchState where
  batches : List Batch
  current : List Suggestion
  cost : ℚ
deriving DecidableEq, Repr

/-- One iteration of the batching loop (lines 1539-1557): flush the
current batch when it already holds 10 items, or when the incoming cost
would push a non-empty batch over 100; then append the item. -/
def batchStep (st : BatchState) (s : Suggestion) : BatchState :=
  if 10 ≤ st.current.length ∨ (100 < st.cost + itemCost s ∧ 0 < st.current.length) then
    { batches := st.batches ++ [mkBatch st.current st.cost]
      current := [s], cost := itemCost s }
  else
    { st with current := st.current ++ [s], cost := st.cost + itemCost s }

/-- Emission of the trailing batch when it still holds items (lines
1560-1567). -/
def finishBatches (st : BatchState) : List Batch :=
  if 0 < st.current.length then st.batches ++ [mkBatch st.current st.cost] else st.batches

/-- The batch-planner stage of `generateSmartReorderPlan` (lines
1520-1567): sort the optimized items, greedily fill batches, and emit the
trailing batch when non-empty. -/
def planBatches (optimizedItems : List Suggestion) : List Batch :=
  finishBatches ((sortForBatching optimizedItems).foldl batchStep ⟨[], [], 0⟩)

/-- Concatenation of the item lists of consecutive batches. -/
def joinItems (bs : List Batch) : List Suggestion := (bs.map (fun b => b.items)).flatten

/-- Modelled from the spec words of C8: the category floor on its own
(grocery at quantity three or more, household at three or more,
electronics at two or more; otherwise no floor). -/
def specBulkFloor (q : ℚ) (category : String) : ℚ :=
  if category = "grocery" ∧ 3 ≤ q then 8/100
  else if category = "household" ∧ 3 ≤ q then 12/100
  else if category = "electronics" ∧ 2 ≤ q then 5/100
  else 0

/-- Modelled from the spec words of C8: price times order quantity times
the quantity-tier rate raised to the category floor; unpriced items
contribute zero. -/
def specItemBulkSavings (s : Suggestion) : ℚ :=
  let q := resolvedOrderQuantity s
  match s.item.price with
  | none => 0
  | some p => p * q * max (bulkTierRate q) (specBulkFloor q s.item.category)

/-- Modelled from the spec words of C8: the per-item savings summed. -/
def specBulkSavingsSum (items : List Suggestion) : ℚ :=
  (items.map specItemBulkSavings).sum

/-- The scenario item of claim C1: out of stock, grocery, weekly. -/
def c1Item : Item :=
  { name := "Milk", quantity := 0, category := "grocery",
    minThreshold := some 2, purchaseFrequency := some "weekly" }

/-- The failing item of claim C3: positive stock whose resolved daily
consumption rate is `0 || (0 / 14) = 0`. -/
def c3Item : Item :=
  { name := "Napkins", quantity := 5, category := "general",
    minThreshold := some 0, dailyConsumptionRate := some 0 }

/-- The failing item of claim C4: out of stock. -/
def c4Item : Item :=
  { name := "Rice", quantity := 0, category := "grocery", minThreshold := some 1 }

/-- First essential suggestion of the C2 failing input. -/
def c2SuggestionA : Suggestion :=
  { item := { name := "Bread", quantity := 0, category := "grocery",
              minThreshold := some 1, price := some 3 },
    suggestedOrderQuantity := 2, urgency := "critical", essential := some true }

/-- Second essential suggestion of the C2 failing input. -/
def c2SuggestionB : Suggestion :=
  { item := { name := "Eggs", quantity := 0, category := "grocery",
              minThreshold := some 1, price := some 4 },
    suggestedOrderQuantity := 1, urgency := "critical", essential := some true }

/-- The C2 failing options: default `balanced` preference, with a budget
and cap generous enough that the claim predicts both items kept. -/
def c2Options : OptimizeOptions :=
  { preference := "balanced", maxItems := some 10, budget := some 1000 }

/-- One $5-cost essential suggestion, replicated for the C6 scenario. -/
def c6Suggestion : Suggestion :=
  { item := { name := "Water", quantity := 0, category := "grocery", price := some 5 },
    suggestedOrderQuantity := 1, urgency := "critical", essential := some true }

/-- The 25-item list of the C6 scenario. -/
def c6Items : List Suggestion := List.replicate 25 c6Suggestion

/-- The first batch the C6 scenario produces: ten $5 items, $50 total. -/
def c6FirstBatch : Batch := mkBatch (List.replicate 10 c6Suggestion) 50

/-- The cart entry of the C8 scenario
`{price:10, orderQuantity:10, category:"grocery"}`. -/
def c8CartItem : Suggestion :=
  { item := { name := "Snacks", quantity := 1, category := "grocery", price := some 10 },
    orderQuantity := some 10 }

/-- A below-threshold item used to witness claim C5. -/
def c5WitnessItem : Item :=
  { name := "Beans", quantity := 1, category := "grocery", minThreshold := some 5 }

/-- A below-threshold item used to witness claim C9. -/
def c9WitnessItem : Item :=
  { name := "Tea", quantity := 1, category := "grocery", minThreshold := some 5 }

/-- A below-threshold item with no `purchaseFrequency`, witnessing C10. -/
def c10WitnessItem : Item :=
  { name := "Soap", quantity := 1, category := "household", minThreshold := some 5 }

theorem insertP_perm (le : α → α → Bool) (x : α) (l : List α) :
    (insertP le x l).Perm (x :: l) := by
  induction l with
  | nil => simp [insertP]
  | cons y ys ih =>
      simp only [insertP]
      split
      · exact List.Perm.refl _
      · exact (ih.cons y).trans (List.Perm.swap x y ys)

theorem sortP_perm (le : α → α → Bool) (l : List α) : (sortP le l).Perm l := by
  induction l with
  | nil => simp [sortP]
  | cons x xs ih => exact (insertP_perm le x (sortP le xs)).trans (ih.cons x)

theorem batchFold_join (l : List Suggestion) (st : BatchState) :
    joinItems (l.foldl batchStep st).batches ++ (l.foldl batchStep st).current
      = joinItems st.batches ++ st.current ++ l := by
  induction l generalizing st with
  | nil => simp
  | cons s rest ih =>
      rw [List.foldl_cons, ih]
      unfold batchStep
      split
      · simp [joinItems, mkBatch]
      · simp

theorem batchFold_ok (l : List Suggestion) (st : BatchState)
    (hB : ∀ b ∈ st.batches, b.items.length ≤ 10 ∧ (2 ≤ b.items.length → b.totalCost ≤ 100))
    (hlen : st.current.length ≤ 10)
    (hcost : 2 ≤ st.current.length → st.cost ≤ 100) :
    (∀ b ∈ (l.foldl batchStep st).batches,
        b.items.length ≤ 10 ∧ (2 ≤ b.items.length → b.totalCost ≤ 100))
      ∧ (l.foldl batchStep st).current.length ≤ 10
      ∧ (2 ≤ (l.foldl batchStep st).current.length → (l.foldl batchStep st).cost ≤ 100) := by
  induction l generalizing st with
  | nil => exact ⟨hB, hlen, hcost⟩
  | cons s rest ih =>
      rw [List.foldl_cons]
      by_cases hc : 10 ≤ st.current.length ∨ (100 < st.cost + itemCost s ∧ 0 < st.current.length)
      · refine ih _ ?_ ?_ ?_
        · intro b hb
          rw [batchStep, if_pos hc] at hb
          simp only [List.mem_append, List.mem_singleton] at hb
          rcases hb with h | h
          · exact hB b h
          · subst h
            exact ⟨hlen, hcost⟩
        · rw [batchStep, if_pos hc]
          simp
        · rw [batchStep, if_pos hc]
          intro h2
          simp at h2
      · refine ih _ ?_ ?_ ?_
        · intro b hb
          rw [batchStep, if_neg hc] at hb
          exact hB b hb
        · rw [batchStep, if_neg hc]
          push_neg at hc
          simp only [List.length_append, List.length_singleton]
          omega
        · rw [batchStep, if_neg hc]
          intro h2
          push_neg at hc
          simp only [List.length_append, List.length_singleton] at h2
          rcases lt_or_le 100 (st.cost + itemCost s) with hgt | hle
          · have := hc.2 hgt
            omega
          · exact hle

theorem batchFold_join_init (l : List Suggestion) :
    joinItems (l.foldl batchStep ⟨[], [], 0⟩).batches
      ++ (l.foldl batchStep ⟨[], [], 0⟩).current = l := by
  simpa [joinItems] using batchFold_join l ⟨[], [], 0⟩

theorem finishBatches_join (st : BatchState) :
    joinItems (finishBatches st) = joinItems st.batches ++ st.current := by
  unfold finishBatches
  split
  · simp [joinItems, mkBatch]
  · rename_i h
    have hnil : st.current = [] := List.eq_nil_of_length_eq_zero (by omega)
    simp [hnil]

theorem finishBatches_ok (st : BatchState)
    (hB : ∀ b ∈ st.batches, b.items.length ≤ 10 ∧ (2 ≤ b.items.length → b.totalCost ≤ 100))
    (hlen : st.current.length ≤ 10)
    (hcost : 2 ≤ st.current.length → st.cost ≤ 100) :
    ∀ b ∈ finishBatches st, b.items.length ≤ 10 ∧ (2 ≤ b.items.length → b.totalCost ≤ 100) := by
  intro b hb
  unfold finishBatches at hb
  split at hb
  · rcases List.mem_append.mp hb with h | h
    · exact hB b h
    · rw [List.mem_singleton] at h
      subst h
      exact ⟨hlen, hcost⟩
  · exact hB b hb

theorem upcomingItems_nil (inventory : List Item) (d : ℚ) :
    upcomingItems inventory d = [] := by
  unfold upcomingItems
  rw [List.filter_eq_nil_iff.mpr]
  · rfl
  · intro a _
    simp [upcomingPred, numberField, jsGtUndef]

theorem foldl_add_eq (f : α → ℚ) : ∀ (l : List α) (a : ℚ),
    l.foldl (fun acc s => acc + f s) a = a + (l.map f).sum
  | [], a => by simp
  | x :: xs, a => by
      simp only [List.foldl_cons, List.map_cons, List.sum_cons]
      rw [foldl_add_eq f xs (a + f x)]
      ring

theorem bulkTierRate_nonneg (q : ℚ) : 0 ≤ bulkTierRate q := by
  unfold bulkTierRate
  split_ifs <;> norm_num

theorem bulkCategoryRate_eq_max (q : ℚ) (c : String) :
    bulkCategoryRate q c (bulkTierRate q) = max (bulkTierRate q) (specBulkFloor q c) := by
  unfold bulkCategoryRate specBulkFloor
  split_ifs <;> simp [max_eq_left (bulkTierRate_nonneg q)]

theorem itemBulkSavings_eq_spec (s : Suggestion) :
    itemBulkSavings s = specItemBulkSavings s := by
  unfold itemBulkSavings specItemBulkSavings
  cases hp : s.item.price with
  | none => rfl
  | some p =>
      simp only [bulkCategoryRate_eq_max]
      split_ifs with h0
      · rw [h0]; ring
      · rfl

/-- C1: the spec scenario expects the item `{quantity:0, minThreshold:2,
category:"grocery", purchaseFrequency:"weekly"}` to appear in the
suggestions with urgency `critical` and suggested quantity `4`, but
`validateItem` counts the falsy `quantity: 0` as a missing required
field, so `calculateReorderSuggestions` silently excludes the item and
returns no suggestions at all; the map step, had the item reached it,
would indeed have produced quantity `4` and urgency `critical`. -/
theorem c1_scenario_item_rejected_by_validator :
    (validateItem (some c1Item)).valid = false
    ∧ (validateItem (some c1Item)).error = some "Missing required fields: quantity"
    ∧ (calculateReorderSuggestions (some [c1Item]) {}).items = []
    ∧ (makeSuggestion {} c1Item).suggestedOrderQuantity = 4
    ∧ (makeSuggestion {} c1Item).urgency = "critical" := by
  refine ⟨by decide, by decide, by decide, by decide, by decide⟩

/-- C2: on two items labeled essential, with a budget and item cap loose
enough that the claim requires both to be kept, `optimizeShoppingList`
under the default `balanced` preference returns an empty item list: the
sort comparator evaluates `this._getUrgencyTier` where `this` is the
module-level `undefined`, the `TypeError` reaches the catch-all, and
every essential item is dropped regardless of the budget and cap
options. -/
theorem c2_optimizer_drops_essentials_on_comparator_typeerror :
    essTruthy c2SuggestionA = true
    ∧ essTruthy c2SuggestionB = true
    ∧ (optimizeShoppingList (some [c2SuggestionA, c2SuggestionB]) c2Options).items = []
    ∧ (optimizeShoppingList (some [c2SuggestionA, c2SuggestionB]) c2Options).error
        = some "TypeError: this is undefined"
    ∧ (optimizeShoppingList (some [c2SuggestionA, c2SuggestionB]) c2Options).success = false := by
  refine ⟨by decide, by decide, by decide, by decide, by decide⟩

/-- C3: for an item with positive quantity whose resolved daily rate is
`0` (here `dailyConsumptionRate: 0` falling back to `minThreshold/14`
with `minThreshold: 0`), `calculateDaysLeft` performs the unguarded
division and returns `Infinity`, not the large finite bound the spec
requires; with `minThreshold` absent the result is even `NaN`. -/
theorem c3_zero_rate_gives_infinity :
    calculateDaysLeft (some c3Item) = JSNum.posInf
    ∧ calculateDaysLeft (some { name := "Tape", quantity := 3, category := "office" })
        = JSNum.nan := by
  refine ⟨by decide, by decide⟩

/-- C4: for every item with `quantity == 0` the days-left half of the
claim holds (`calculateDaysLeft` returns `0`), and the urgency rule of
the map step would assign `critical`; but the suggestion generator never
actually assigns any urgency to such an item, because `validateItem`
treats the falsy quantity as missing and the item is filtered out, as
the concrete out-of-stock item shows. -/
theorem c4_out_of_stock_never_reaches_urgency :
    (∀ item : Item, item.quantity = 0 → calculateDaysLeft (some item) = JSNum.num 0)
    ∧ (makeSuggestion {} c4Item).urgency = "critical"
    ∧ (validateItem (some c4Item)).valid = false
    ∧ (calculateReorderSuggestions (some [c4Item]) {}).items = [] := by
  refine ⟨?_, by decide, by decide, by decide⟩
  intro item h
  simp [calculateDaysLeft, h]

/-- C4 witness: the universal days-left half applied to the concrete
out-of-stock item. -/
theorem c4_witness :
    c4Item.quantity = 0 ∧ calculateDaysLeft (some c4Item) = JSNum.num 0 :=
  ⟨rfl, c4_out_of_stock_never_reaches_urgency.1 c4Item rfl⟩

/-- C5: every item in the output of `calculateReorderSuggestions` carries
`suggestedOrderQuantity = Math.max(1, Math.ceil(...))`, an integer at
least 1; and the `upcoming` list of `generateSmartReorderPlan` is always
empty (its filter reads `.daysLeft` off a plain number, so the bound
check compares `undefined` and fails), so its items satisfy the claim
vacuously. -/
theorem c5_suggested_order_quantity_at_least_one :
    (∀ (inventory : Option (List Item)) (opts : ReorderOptions),
        ∀ s ∈ (calculateReorderSuggestions inventory opts).items,
          ∃ n : ℤ, s.suggestedOrderQuantity = (n : ℚ) ∧ 1 ≤ n)
    ∧ (∀ (inventory : List Item) (d : ℚ), upcomingItems inventory d = []) := by
  constructor
  · intro inventory opts s hs
    match inventory with
    | none => simp [calculateReorderSuggestions] at hs
    | some [] => simp [calculateReorderSuggestions] at hs
    | some (a :: l) =>
        simp only [calculateReorderSuggestions, mkSuggestResult] at hs
        rcases List.mem_map.mp hs with ⟨it, hit, rfl⟩
        exact ⟨max 1 (Rat.ceil (rawOrderQuantity it)), rfl, le_max_left 1 _⟩
  · exact upcomingItems_nil

/-- C5 witness: the theorem applied to a one-item inventory. -/
theorem c5_witness :
    ∃ n : ℤ, (makeSuggestion {} c5WitnessItem).suggestedOrderQuantity = (n : ℚ) ∧ 1 ≤ n :=
  c5_suggested_order_quantity_at_least_one.1 (some [c5WitnessItem]) {}
    (makeSuggestion {} c5WitnessItem) (by decide)

set_option maxRecDepth 8000 in
/-- C6: the batch planner stage partitions the optimized item list — the
batches concatenate, in creation order, exactly to the urgency-sorted
list, which is a permutation of the input, so no item is dropped or
duplicated; every batch holds at most 10 items; a batch with two or more
items never exceeds the cost cap of 100 (an oversized item can only
stand alone); and batching 25 same-cost-$5 essential items yields
batches of 10, 10 and 5 items. -/
theorem c6_batch_planner_partitions_input :
    (∀ items : List Suggestion,
        joinItems (planBatches items) = sortForBatching items
        ∧ (sortForBatching items).Perm items
        ∧ (∀ b ∈ planBatches items,
             b.items.length ≤ 10 ∧ (2 ≤ b.items.length → b.totalCost ≤ 100)))
    ∧ (planBatches c6Items).map (fun b => b.itemCount) = [10, 10, 5] := by
  constructor
  · intro items
    have hok := batchFold_ok (sortForBatching items) ⟨[], [], 0⟩
      (by intro b hb; simp at hb) (by simp) (by intro h; simp at h)
    refine ⟨?_, sortP_perm _ _, ?_⟩
    · unfold planBatches
      rw [finishBatches_join]
      exact batchFold_join_init (sortForBatching items)
    · unfold planBatches
      exact finishBatches_ok _ hok.1 hok.2.1 hok.2.2
  · decide

set_option maxRecDepth 8000 in
/-- C6 witness: the theorem applied to the 25-item scenario and its first
batch of ten $5 items. -/
theorem c6_witness :
    c6FirstBatch.items.length ≤ 10 ∧ c6FirstBatch.totalCost ≤ 100 :=
  ⟨((c6_batch_planner_partitions_input.1 c6Items).2.2 c6FirstBatch (by decide)).1,
   ((c6_batch_planner_partitions_input.1 c6Items).2.2 c6FirstBatch (by decide)).2 (by decide)⟩

/-- C7 counterexample: on an empty cart the early return of
`calculateSubscriptionSavings` carries no `totalAnnualSavings` key at
all, so the claimed `totalAnnualSavings == 0` fails (`undefined`, not
`0`). -/
theorem c7_counterexample :
    (calculateSubscriptionSavings (some [])).totalAnnualSavings ≠ some 0 := by decide

/-- C7 amended: `calculateBulkSavings` returns 0 and
`calculateSubscriptionSavings` returns zero `totalSavings`, an empty
itemization and zero recommended count on empty or absent input, with no
exception; but the empty-input result omits `totalAnnualSavings`
(`undefined`) instead of returning 0. -/
theorem c7_empty_input_zero_totals :
    calculateBulkSavings (some []) = 0
    ∧ calculateBulkSavings none = 0
    ∧ calculateSubscriptionSavings (some []) =
        { totalSavings := 0, itemizedSavings := [], recommendedItems := 0,
          totalAnnualSavings := none }
    ∧ calculateSubscriptionSavings none =
        { totalSavings := 0, itemizedSavings := [], recommendedItems := 0,
          totalAnnualSavings := none } := by
  refine ⟨by decide, by decide, by decide, by decide⟩

/-- C8: `calculateBulkSavings` computes, per item, price times resolved
order quantity times the quantity-tier rate raised to the category
floor, summed over the cart with unpriced items contributing zero — the
code if-chain agrees with the max-of-rates reading of the spec — and the
scenario cart `{price:10, orderQuantity:10, category:"grocery"}` yields
savings 15. -/
theorem c8_bulk_savings_formula :
    (∀ items : List Suggestion, calculateBulkSavings (some items) = specBulkSavingsSum items)
    ∧ calculateBulkSavings (some [c8CartItem]) = 15 := by
  constructor
  · intro items
    cases items with
    | nil => rfl
    | cons a l =>
        show (a :: l).foldl (fun acc s => acc + itemBulkSavings s) 0 = _
        rw [foldl_add_eq, funext itemBulkSavings_eq_spec]
        simp [specBulkSavingsSum]
  · decide

/-- C9: `calculateReorderSuggestions` is a pure function of the inventory
snapshot and the options — the suggestion path invokes no randomness
(the jitter lives only in the prediction model, which this function
never calls) — so two calls on equal inputs return identical item lists,
with identical urgency tiers and suggested quantities. -/
theorem c9_suggest_deterministic :
    ∀ (inventory₁ inventory₂ : Option (List Item)) (opts₁ opts₂ : ReorderOptions),
      inventory₁ = inventory₂ → opts₁ = opts₂ →
      (calculateReorderSuggestions inventory₁ opts₁).items
        = (calculateReorderSuggestions inventory₂ opts₂).items := by
  intro inventory₁ inventory₂ opts₁ opts₂ h1 h2
  subst h1
  subst h2
  rfl

/-- C9 witness: the theorem applied to a concrete one-item inventory. -/
theorem c9_witness :
    (calculateReorderSuggestions (some [c9WitnessItem]) {}).items
      = (calculateReorderSuggestions (some [c9WitnessItem]) {}).items :=
  c9_suggest_deterministic (some [c9WitnessItem]) (some [c9WitnessItem]) {} {} rfl rfl

/-- C10: every suggested item whose `purchaseFrequency` is absent or the
empty string (both falsy) gets `subscriptionEligible` false, because
eligibility first requires a truthy `purchaseFrequency`. -/
theorem c10_falsy_frequency_not_subscription_eligible :
    ∀ (inventory : Option (List Item)) (opts : ReorderOptions),
      ∀ s ∈ (calculateReorderSuggestions inventory opts).items,
        (s.item.purchaseFrequency = none ∨ s.item.purchaseFrequency = some "") →
        s.subscriptionEligible = false := by
  intro inventory opts s hs hpf
  match inventory with
  | none => simp [calculateReorderSuggestions] at hs
  | some [] => simp [calculateReorderSuggestions] at hs
  | some (a :: l) =>
      simp only [calculateReorderSuggestions, mkSuggestResult] at hs
      rcases List.mem_map.mp hs with ⟨it, hit, rfl⟩
      rcases hpf with h | h <;>
        simp only [makeSuggestion] at h ⊢ <;>
        simp [jsTruthyStr, h]

/-- C10 witness: the theorem applied to a below-threshold item with no
`purchaseFrequency` field. -/
theorem c10_witness :
    (makeSuggestion {} c10WitnessItem).subscriptionEligible = false :=
  c10_falsy_frequency_not_subscription_eligible (some [c10WitnessItem]) {}
    (makeSuggestion {} c10WitnessItem) (by decide) (Or.inl rfl)
